import Mathlib

/-!
Verification of the KNX2 Home Assistant integration (`src/__init__.py`,
`src/services.py`, `src/websocket.py`, `src/switch.py`, `src/text.py`,
`src/date.py`) against its natural-language specification.

The Python code is shallowly embedded: the external `xknx` library's data
types (addresses, APCI payloads, DPT transcoders, address filters) are
modelled as Lean inductive types and function-carrying structures, Python
dicts become association lists, and exceptions become `Except`.
-/

namespace Knx2

/-- A KNX bus address as used by `xknx.telegram.address`: a `GroupAddress`
(raw numeric form), an `InternalGroupAddress` (string id), or an
`IndividualAddress`.  `DeviceGroupAddress = GroupAddress | InternalGroupAddress`. -/
inductive KnxAddress where
  | group (raw : Nat)
  | internalGroup (id : String)
  | individual (raw : Nat)
deriving DecidableEq

/-- Mirrors `isinstance(addr, (GroupAddress, InternalGroupAddress))` in
`KNX2Module.telegram_received_cb`. -/
def KnxAddress.isGroupAddressable : KnxAddress → Bool
  | .group _ => true
  | .internalGroup _ => true
  | .individual _ => false

/-- `str(address)` as used for the event payload fields. -/
def KnxAddress.render : KnxAddress → String
  | .group n => toString n
  | .internalGroup s => "i-" ++ s
  | .individual n => toString n

/-- The serializable `.value` of a `DPTBinary` (an int) or a `DPTArray`
(a tuple of ints). -/
inductive RawData where
  | int (n : Nat)
  | tuple (bytes : List Nat)
deriving DecidableEq

/-- A raw payload value attached to a `GroupValueWrite`/`GroupValueResponse`:
either `DPTBinary` or `DPTArray` from `xknx.dpt`. -/
inductive DPTPayload where
  | binary (v : Nat)
  | array (bytes : List Nat)
deriving DecidableEq

/-- `payload.value.value` — the serializable data of a DPT payload. -/
def DPTPayload.rawValue : DPTPayload → RawData
  | .binary v => .int v
  | .array bs => .tuple bs

/-- The APCI payload of a telegram (`xknx.telegram.apci`): the service
cares about `GroupValueWrite`, `GroupValueResponse` and `GroupValueRead`;
other APCI kinds are collapsed into `other`. -/
inductive APCI where
  | groupValueWrite (value : Option DPTPayload)
  | groupValueResponse (value : Option DPTPayload)
  | groupValueRead
  | other (name : String)
deriving DecidableEq

/-- The combined check `isinstance(payload, (GroupValueWrite,
GroupValueResponse)) and payload.value is not None`: returns the carried
DPT payload exactly when the check passes. -/
def APCI.writeOrResponseValue : APCI → Option DPTPayload
  | .groupValueWrite (some v) => some v
  | .groupValueResponse (some v) => some v
  | _ => none

/-- `telegram.payload.__class__.__name__`. -/
def APCI.className : APCI → String
  | .groupValueWrite _ => "GroupValueWrite"
  | .groupValueResponse _ => "GroupValueResponse"
  | .groupValueRead => "GroupValueRead"
  | .other n => n

/-- A decoded application-level value produced by a transcoder. -/
inductive KnxValue where
  | num (n : Int)
  | str (s : String)
  | bool (b : Bool)
deriving DecidableEq

/-- The exceptions caught around `transcoder.from_knx` in
`telegram_received_cb`: `xknx.exceptions.ConversionError` and
`xknx.exceptions.CouldNotParseTelegram`.  These are the only errors the
`xknx` decode contract raises for a malformed payload. -/
inductive DecodeError where
  | conversionError (msg : String)
  | couldNotParseTelegram (msg : String)
deriving DecidableEq

/-- A payload accepted by the `knx2.send` service schema: with no `type`
attribute the schema only admits a positive int or a list of positive
ints (`vol.Any(cv.positive_int, [cv.positive_int])`). -/
inductive ServicePayload where
  | int (n : Nat)
  | intList (l : List Nat)
deriving DecidableEq

/-- A DPT transcoder class (`xknx.dpt.DPTBase` subclass): a named codec.
`from_knx` decodes a raw DPT payload; `to_knx2` encodes a service payload
(encode failures are `ConversionError`, modelled by its message). -/
structure Transcoder where
  name : String
  from_knx : DPTPayload → Except DecodeError KnxValue
  to_knx2 : ServicePayload → Except String DPTPayload

/-- An `xknx.telegram.AddressFilter`: a pattern with a `match` predicate
over destination addresses. -/
structure AddressFilter where
  pattern : String
  addr_match : KnxAddress → Bool

/-- A bus telegram as consumed by `telegram_received_cb`. -/
structure Telegram where
  source_address : KnxAddress
  destination_address : KnxAddress
  direction : String
  payload : APCI

/-- Association-list lookup, modelling Python `dict.get` (keys are unique
in a Python dict, so first match is the match). -/
def dictGet {α β : Type} [DecidableEq α] : List (α × β) → α → Option β
  | [], _ => none
  | p :: rest, k => if p.1 = k then some p.2 else dictGet rest k

/-- Association-list key deletion, modelling Python `del d[k]` / `d.pop(k)`. -/
def dictDelete {α β : Type} [DecidableEq α] (l : List (α × β)) (k : α) :
    List (α × β) :=
  l.filter (fun p => p.1 ≠ k)

/-- Python `k in d`. -/
def dictContains {α β : Type} [DecidableEq α] (l : List (α × β)) (k : α) : Bool :=
  l.any (fun p => p.1 = k)

/-- Python `d[k] = v`: replace in place when the key exists, else append. -/
def dictSet {α β : Type} [DecidableEq α] (l : List (α × β)) (k : α) (v : β) :
    List (α × β) :=
  if dictContains l k then l.map (fun p => if p.1 = k then (k, v) else p)
  else l ++ [(k, v)]

/-- Number of entries stored under a key. -/
def countKey {α β : Type} [DecidableEq α] (l : List (α × β)) (k : α) : Nat :=
  (l.filter (fun p => p.1 = k)).length

/-- The data of an `exposure_register` service call after schema
validation: the group address string (`KNX2_ADDRESS`), the `remove` flag,
and the remaining configuration entries. -/
structure ExposureCall where
  address : String
  remove : Bool
  config : List (String × String)
deriving DecidableEq

/-- A live exposure object (`KNX2ExposeSensor | KNX2ExposeTime`). -/
structure Exposure where
  address : String
  config : List (String × String)
deriving DecidableEq

/-- Modelled from the spec: `create_knx2_exposure` lives in `expose.py`,
which is not among the provided source files.  The spec says
`register_exposure` adds "a live outbound exposure binding" built from the
call data; the model packages the call's configuration into the exposure. -/
def create_knx2_exposure (call : ExposureCall) : Exposure :=
  { address := call.address, config := call.config }

/-- The state of `KNX2Module` relevant to the verified operations:

* `group_address_transcoder` — the direct address-to-transcoder dict;
* `address_filter_transcoder` — `_address_filter_transcoder`, an
  insertion-ordered dict of filter/transcoder bindings;
* `event_group_addresses` — `knx2_event_callback.group_addresses`;
* `service_exposures` — the `service_exposures` dict keyed by the group
  address string;
* `current_address` — `xknx.current_address`. -/
structure KNX2Module where
  group_address_transcoder : List (KnxAddress × Transcoder)
  address_filter_transcoder : List (AddressFilter × Transcoder)
  event_group_addresses : List KnxAddress
  service_exposures : List (String × Exposure)
  current_address : KnxAddress

/-- The `try/except` around `transcoder.from_knx(telegram.payload.value)`:
on success the decoded value, on `ConversionError`/`CouldNotParseTelegram`
a logged warning and the value stays `None`. -/
def decodeResult (tc : Transcoder) (pv : DPTPayload) : Option KnxValue :=
  match tc.from_knx pv with
  | .ok v => some v
  | .error _err => none

/-- Transcoder selection in `telegram_received_cb`:
`self.group_address_transcoder.get(dest) or next((tc for f, tc in
self._address_filter_transcoder.items() if f.match(dest)), None)`.
The exact-match lookup wins; otherwise the first matching filter in
insertion order. -/
def selectTranscoder (m : KNX2Module) (dest : KnxAddress) : Option Transcoder :=
  match dictGet m.group_address_transcoder dest with
  | some tc => some tc
  | none =>
      match m.address_filter_transcoder.find? (fun p => p.1.addr_match dest) with
      | some p => some p.2
      | none => none

/-- The `knx2_event` event data fired by `hass.bus.async_fire`. -/
structure KnxEvent where
  data : Option RawData
  destination : String
  direction : String
  value : Option KnxValue
  source : String
  telegramtype : String
deriving DecidableEq

/-- `KNX2Module.telegram_received_cb` (src/__init__.py): computes the
`knx2_event` data fired for a received telegram.  `data` and `value`
start as `None`; they are only assigned for a `GroupValueWrite`/
`GroupValueResponse` payload with a non-`None` value sent to a
group-addressable destination, and `value` additionally requires a
transcoder whose decode succeeds. -/
def telegram_received_cb (m : KNX2Module) (t : Telegram) : KnxEvent :=
  let decoded : Option RawData × Option KnxValue :=
    match t.payload.writeOrResponseValue with
    | some pv =>
        if t.destination_address.isGroupAddressable then
          (some pv.rawValue,
            match selectTranscoder m t.destination_address with
            | some tc => decodeResult tc pv
            | none => none)
        else (none, none)
    | none => (none, none)
  { data := decoded.1
    destination := t.destination_address.render
    direction := t.direction
    value := decoded.2
    source := t.source_address.render
    telegramtype := t.payload.className }

/-- Errors raised by the service layer: `HomeAssistantError` (used by
`get_knx2_module` when the entry is not loaded) and
`ServiceValidationError` (invalid service input). -/
inductive ServiceError where
  | homeAssistantError (msg : String)
  | serviceValidationError (msg : String)
deriving DecidableEq

/-- The part of `hass.data` the services read: the module stored under
`KNX2_MODULE_KEY`, absent before setup / after unload. -/
structure HassData where
  knx2_module : Option KNX2Module

/-- `get_knx2_module` (src/services.py): returns the module from
`hass.data[KNX2_MODULE_KEY]`, raising `HomeAssistantError("KNX2 entry not
loaded")` on `KeyError`. -/
def get_knx2_module (hass : HassData) : Except ServiceError KNX2Module :=
  match hass.knx2_module with
  | some m => Except.ok m
  | none => Except.error (.homeAssistantError "KNX2 entry not loaded")

/-- The pieces of the external `xknx` library the services call:
`parse_device_group_address` (schema-validated input, so total here) and
`DPTBase.parse_transcoder` (the transcoder registry lookup). -/
structure XknxEnv where
  parse_device_group_address : String → KnxAddress
  parse_transcoder : String → Option Transcoder

/-- The data of a `knx2.send` service call after schema validation. -/
structure SendCall where
  address : List String
  payload : ServicePayload
  type? : Option String
  response : Bool

/-- `service_send_to_knx2_bus` (src/services.py): encodes the payload —
via the named transcoder when `type` is given (unknown type or
`ConversionError` become a `ServiceValidationError`), else an int payload
becomes `DPTBinary` and a sequence becomes `DPTArray` — and queues one
`GroupValueWrite`/`GroupValueResponse` telegram per address.  The result
list models the telegrams put on `xknx.telegrams`. -/
def service_send_to_knx2_bus (env : XknxEnv) (hass : HassData)
    (call : SendCall) : Except ServiceError (List Telegram) :=
  match get_knx2_module hass with
  | .error err => .error err
  | .ok m =>
      let encoded : Except ServiceError DPTPayload :=
        match call.type? with
        | some ty =>
            match env.parse_transcoder ty with
            | none =>
                .error (.serviceValidationError
                  ("Invalid type for knx2.send service: " ++ ty))
            | some transcoder =>
                match transcoder.to_knx2 call.payload with
                | .ok p => .ok p
                | .error err =>
                    .error (.serviceValidationError
                      ("Invalid payload for knx2.send service: " ++ err))
        | none =>
            match call.payload with
            | .int n => .ok (DPTPayload.binary n)
            | .intList l => .ok (DPTPayload.array l)
      match encoded with
      | .error err => .error err
      | .ok payload =>
          .ok (call.address.map (fun addr =>
            { destination_address := env.parse_device_group_address addr
              payload :=
                if call.response then APCI.groupValueResponse (some payload)
                else APCI.groupValueWrite (some payload)
              source_address := m.current_address
              direction := "Outgoing" }))

/-- The data of a `knx2.read` service call. -/
structure ReadCall where
  address : List String

/-- `service_read_to_knx2_bus` (src/services.py): queues one
`GroupValueRead` telegram per address. -/
def service_read_to_knx2_bus (env : XknxEnv) (hass : HassData)
    (call : ReadCall) : Except ServiceError (List Telegram) :=
  match get_knx2_module hass with
  | .error err => .error err
  | .ok m =>
      .ok (call.address.map (fun addr =>
        { destination_address := env.parse_device_group_address addr
          payload := APCI.groupValueRead
          source_address := m.current_address
          direction := "Outgoing" }))

/-- The data of a `knx2.event_register` service call. -/
structure EventRegisterCall where
  address : List String
  type? : Option String
  remove : Bool

/-- The removal loop of `service_event_register_modify`: for each parsed
group address, `list.remove` it from the callback's `group_addresses`
(first occurrence; a missing address only logs a warning) and `del` its
entry from `group_address_transcoder` if present. -/
def event_register_remove : List KnxAddress → List KnxAddress →
    List (KnxAddress × Transcoder) →
    List KnxAddress × List (KnxAddress × Transcoder)
  | [], ev, tr => (ev, tr)
  | ga :: rest, ev, tr =>
      event_register_remove rest (ev.erase ga) (dictDelete tr ga)

/-- The registration loop of `service_event_register_modify`: append each
address to the callback's `group_addresses` unless already present. -/
def add_event_addresses : List KnxAddress → List KnxAddress → List KnxAddress
  | [], ev => ev
  | ga :: rest, ev =>
      if ga ∈ ev then add_event_addresses rest ev
      else add_event_addresses rest (ev ++ [ga])

/-- `dict.update({a: tc for a in gas})`. -/
def dictUpdateMany {α β : Type} [DecidableEq α] (l : List (α × β))
    (ks : List α) (v : β) : List (α × β) :=
  ks.foldl (fun acc k => dictSet acc k v) l

/-- `service_event_register_modify` (src/services.py): with `remove` set,
runs the removal loop; otherwise installs the transcoder (when `type`
names one) for every address and appends the addresses to the callback's
subscription list. -/
def service_event_register_modify (env : XknxEnv) (hass : HassData)
    (call : EventRegisterCall) : Except ServiceError KNX2Module :=
  match get_knx2_module hass with
  | .error err => .error err
  | .ok m =>
      let group_addresses := call.address.map env.parse_device_group_address
      if call.remove then
        let st := event_register_remove group_addresses
          m.event_group_addresses m.group_address_transcoder
        .ok { m with event_group_addresses := st.1,
                     group_address_transcoder := st.2 }
      else
        let tr :=
          match call.type? with
          | some dpt =>
              match env.parse_transcoder dpt with
              | some transcoder =>
                  dictUpdateMany m.group_address_transcoder group_addresses
                    transcoder
              | none => m.group_address_transcoder
          | none => m.group_address_transcoder
        let ev := add_event_addresses group_addresses m.event_group_addresses
        .ok { m with event_group_addresses := ev,
                     group_address_transcoder := tr }

/-- `service_exposure_register_modify` (src/services.py): with `remove`
set, `dict.pop` the exposure (a missing key raises
`ServiceValidationError`); otherwise any already-registered exposure for
the address is popped and removed first, then the freshly created
exposure is stored under the address. -/
def service_exposure_register_modify (hass : HassData)
    (call : ExposureCall) : Except ServiceError KNX2Module :=
  match get_knx2_module hass with
  | .error err => .error err
  | .ok m =>
  if call.remove then
    match dictGet m.service_exposures call.address with
    | none =>
        Except.error (.serviceValidationError
          ("Could not find exposure for '" ++ call.address ++ "' to remove."))
    | some _removed_exposure =>
        Except.ok { m with
          service_exposures := dictDelete m.service_exposures call.address }
  else
    let remaining :=
      if (dictGet m.service_exposures call.address).isSome then
        dictDelete m.service_exposures call.address
      else m.service_exposures
    let exposure := create_knx2_exposure call
    Except.ok { m with
      service_exposures := remaining ++ [(call.address, exposure)] }

/-- `service_reload_integration` (src/services.py): needs the module
before doing anything else. -/
def service_reload_integration (hass : HassData) : Except ServiceError Unit :=
  match get_knx2_module hass with
  | .error err => .error err
  | .ok _m => .ok ()

/-- A websocket command message; only the correlation id matters here. -/
structure WsMessage where
  id : Nat

/-- Outcome of a wrapped websocket handler: either the not-loaded error
was sent on the connection, or the wrapped handler ran and produced `r`. -/
inductive WsOutcome (R : Type) where
  | sentError (msgId : Nat) (code : String) (message : String)
  | handled (r : R)
deriving DecidableEq

/-- The `provide_knx2` decorator (src/websocket.py): looks up
`hass.data[KNX2_MODULE_KEY]`; on `KeyError` sends
`ERR_HOME_ASSISTANT_ERROR` / "KNX2 integration not loaded." and returns
without calling the wrapped handler. -/
def provide_knx2 {R : Type} (func : KNX2Module → WsMessage → R)
    (hass : HassData) (msg : WsMessage) : WsOutcome R :=
  match hass.knx2_module with
  | none => .sentError msg.id "home_assistant_error" "KNX2 integration not loaded."
  | some m => .handled (func m msg)

/-- `_Knx2Switch.async_added_to_hass` (src/switch.py): when the switch's
state address is not readable and a persisted state exists whose value is
neither `unknown` nor `unavailable`, seed the device with
`last_state.state == STATE_ON`; otherwise the device value is untouched. -/
def switch_async_added_to_hass (readable : Bool) (last_state : Option String)
    (current : Option Bool) : Option Bool :=
  if !readable then
    match last_state with
    | some s =>
        if s ≠ "unknown" ∧ s ≠ "unavailable" then some (s == "on") else current
    | none => current
  else current

/-- `KNX2Text.async_added_to_hass` (src/text.py): same guard; the seed is
the persisted state string itself. -/
def text_async_added_to_hass (readable : Bool) (last_state : Option String)
    (current : Option String) : Option String :=
  if !readable then
    match last_state with
    | some s =>
        if s ≠ "unknown" ∧ s ≠ "unavailable" then some s else current
    | none => current
  else current

/-- `KNX2DateEntity.async_added_to_hass` (src/date.py): same guard; the
seed is `XKNXDate.from_date(date.fromisoformat(state))`, supplied here as
the external conversion `from_date_iso`. -/
def date_async_added_to_hass {V : Type} (from_date_iso : String → V)
    (readable : Bool) (last_state : Option String)
    (current : Option V) : Option V :=
  if !readable then
    match last_state with
    | some s =>
        if s ≠ "unknown" ∧ s ≠ "unavailable" then some (from_date_iso s)
        else current
    | none => current
  else current

/-! Concrete transcoders, filters and telegrams used by the witnesses.
They stand in for `xknx` DPT classes, which live outside this repository. -/

/-- A one-bit switch codec standing in for `xknx`'s `DPTSwitch`. -/
def tcSwitch : Transcoder :=
  { name := "DPTSwitch"
    from_knx := fun pv =>
      match pv with
      | .binary 0 => .ok (.bool false)
      | .binary 1 => .ok (.bool true)
      | _ => .error (.conversionError "payload invalid")
    to_knx2 := fun p =>
      match p with
      | .int 0 => .ok (.binary 0)
      | .int 1 => .ok (.binary 1)
      | _ => .error "value out of range" }

/-- A one-byte percentage codec standing in for `xknx`'s `DPTScaling`. -/
def tcScaling : Transcoder :=
  { name := "DPTScaling"
    from_knx := fun pv =>
      match pv with
      | .array [b] => .ok (.num ((b * 100 + 127) / 255))
      | _ => .error (.couldNotParseTelegram "payload length mismatch")
    to_knx2 := fun p =>
      match p with
      | .int n =>
          if n ≤ 100 then .ok (.array [n * 255 / 100])
          else .error "value out of range"
      | _ => .error "cannot parse" }

/-- An address filter for `1/2/*` (raw group addresses 2560 to 2815). -/
def filter12 : AddressFilter :=
  { pattern := "1/2/*"
    addr_match := fun a =>
      match a with
      | .group n => decide (2560 ≤ n) && decide (n ≤ 2815)
      | _ => false }

/-- A module with an exact binding for `1/2/5` (raw 2565) and an
overlapping `1/2/*` filter bound to a different transcoder. -/
def exampleModuleExact : KNX2Module :=
  { group_address_transcoder := [(KnxAddress.group 2565, tcSwitch)]
    address_filter_transcoder := [(filter12, tcScaling)]
    event_group_addresses := [KnxAddress.group 2565]
    service_exposures := []
    current_address := KnxAddress.individual 4097 }

/-- A module with no exact bindings and only the `1/2/*` filter. -/
def exampleModuleFilterOnly : KNX2Module :=
  { group_address_transcoder := []
    address_filter_transcoder := [(filter12, tcScaling)]
    event_group_addresses := []
    service_exposures := []
    current_address := KnxAddress.individual 4097 }

/-- An incoming write telegram to `1/2/5` carrying a one-bit `1`. -/
def exampleWriteTelegram : Telegram :=
  { source_address := KnxAddress.individual 4098
    destination_address := KnxAddress.group 2565
    direction := "Incoming"
    payload := APCI.groupValueWrite (some (DPTPayload.binary 1)) }

/-! Claim theorems. -/

/-- C1: for every received telegram whose destination group address has an
exact entry in the direct address-to-transcoder mapping and also matches
one or more registered address filters, `telegram_received_cb` decodes the
payload using the exact-match transcoder, never a filter-bound one. -/
theorem exact_transcoder_priority (m : KNX2Module) (t : Telegram)
    (pv : DPTPayload) (tc : Transcoder)
    (hdv : t.payload.writeOrResponseValue = some pv)
    (hga : t.destination_address.isGroupAddressable = true)
    (hexact : dictGet m.group_address_transcoder t.destination_address = some tc)
    (_hfilter : ∃ p ∈ m.address_filter_transcoder,
        p.1.addr_match t.destination_address = true) :
    (telegram_received_cb m t).value = decodeResult tc pv := by
  simp [telegram_received_cb, selectTranscoder, hdv, hga, hexact]

/-- Witness for C1: with `1/2/5` bound exactly to `tcSwitch` and the
`1/2/*` filter bound to `tcScaling`, the write telegram to `1/2/5`
decodes through `tcSwitch` (value `true`), not `tcScaling`. -/
theorem exact_transcoder_priority_witness :
    (telegram_received_cb exampleModuleExact exampleWriteTelegram).value =
        decodeResult tcSwitch (DPTPayload.binary 1) ∧
    decodeResult tcSwitch (DPTPayload.binary 1) = some (KnxValue.bool true) :=
  ⟨exact_transcoder_priority exampleModuleExact exampleWriteTelegram
      (DPTPayload.binary 1) tcSwitch rfl rfl rfl
      ⟨(filter12, tcScaling), List.mem_singleton_self _, rfl⟩,
    rfl⟩

/-- C2: for every received telegram whose payload decode fails
(`ConversionError` or `CouldNotParseTelegram`), `telegram_received_cb`
does not raise: the event still fires with the raw data preserved and a
`None` decoded value (the failure is only logged). -/
theorem decode_failure_degrades (m : KNX2Module) (t : Telegram)
    (pv : DPTPayload) (tc : Transcoder) (e : DecodeError)
    (hdv : t.payload.writeOrResponseValue = some pv)
    (hga : t.destination_address.isGroupAddressable = true)
    (hsel : selectTranscoder m t.destination_address = some tc)
    (herr : tc.from_knx pv = .error e) :
    (telegram_received_cb m t).data = some pv.rawValue ∧
    (telegram_received_cb m t).value = none := by
  constructor <;> simp [telegram_received_cb, hdv, hga, hsel, decodeResult, herr]

/-- Witness for C2: a two-bit payload `5` makes `tcSwitch` fail to decode;
the event keeps the raw data and carries a `None` value. -/
theorem decode_failure_degrades_witness :
    (telegram_received_cb exampleModuleExact
        { exampleWriteTelegram with
          payload := APCI.groupValueWrite (some (DPTPayload.binary 5)) }).data =
      some (RawData.int 5) ∧
    (telegram_received_cb exampleModuleExact
        { exampleWriteTelegram with
          payload := APCI.groupValueWrite (some (DPTPayload.binary 5)) }).value =
      none :=
  decode_failure_degrades exampleModuleExact
    { exampleWriteTelegram with
      payload := APCI.groupValueWrite (some (DPTPayload.binary 5)) }
    (DPTPayload.binary 5) tcSwitch (.conversionError "payload invalid")
    rfl rfl rfl rfl

/-- C3: for every received telegram whose payload is not a group-value
write or response with a non-null value, or whose destination is not
group-addressable, the fired event has both `data` and `value` null. -/
theorem ineligible_telegram_null (m : KNX2Module) (t : Telegram)
    (h : t.payload.writeOrResponseValue = none ∨
         t.destination_address.isGroupAddressable = false) :
    (telegram_received_cb m t).data = none ∧
    (telegram_received_cb m t).value = none := by
  rcases h with h | h
  · constructor <;> simp [telegram_received_cb, h]
  · cases hdv : t.payload.writeOrResponseValue with
    | none => constructor <;> simp [telegram_received_cb, hdv]
    | some pv => constructor <;> simp [telegram_received_cb, hdv, h]

/-- Witness for C3: a `GroupValueRead` telegram fires an event with both
fields null. -/
theorem ineligible_telegram_null_witness :
    (telegram_received_cb exampleModuleExact
        { exampleWriteTelegram with payload := APCI.groupValueRead }).data =
      none ∧
    (telegram_received_cb exampleModuleExact
        { exampleWriteTelegram with payload := APCI.groupValueRead }).value =
      none :=
  ineligible_telegram_null exampleModuleExact
    { exampleWriteTelegram with payload := APCI.groupValueRead } (Or.inl rfl)

/-- C4: for every received write-or-response telegram whose destination has
no exact transcoder binding and matches no registered address filter, the
fired event carries a null decoded value while the raw payload data is
preserved unchanged. -/
theorem unmatched_destination_raw_preserved (m : KNX2Module) (t : Telegram)
    (pv : DPTPayload)
    (hdv : t.payload.writeOrResponseValue = some pv)
    (hga : t.destination_address.isGroupAddressable = true)
    (hexact : dictGet m.group_address_transcoder t.destination_address = none)
    (hfilter : ∀ p ∈ m.address_filter_transcoder,
        p.1.addr_match t.destination_address = false) :
    (telegram_received_cb m t).value = none ∧
    (telegram_received_cb m t).data = some pv.rawValue := by
  have hfind : m.address_filter_transcoder.find?
      (fun p => p.1.addr_match t.destination_address) = none := by
    rw [List.find?_eq_none]
    intro p hp
    simp [hfilter p hp]
  constructor <;> simp [telegram_received_cb, selectTranscoder, hdv, hga, hexact, hfind]

/-- Witness for C4: a write telegram to `5/0/1` (raw 10241) has no exact
binding and misses the `1/2/*` filter; the raw data survives, the value
is null. -/
theorem unmatched_destination_raw_preserved_witness :
    (telegram_received_cb exampleModuleFilterOnly
        { exampleWriteTelegram with
          destination_address := KnxAddress.group 10241 }).value = none ∧
    (telegram_received_cb exampleModuleFilterOnly
        { exampleWriteTelegram with
          destination_address := KnxAddress.group 10241 }).data =
      some (RawData.int 1) :=
  unmatched_destination_raw_preserved exampleModuleFilterOnly
    { exampleWriteTelegram with destination_address := KnxAddress.group 10241 }
    (DPTPayload.binary 1) rfl rfl rfl
    (fun p hp => by
      have hp1 : p = (filter12, tcScaling) := List.mem_singleton.mp hp
      subst hp1
      rfl)

/-- C5: for every send service call with the `type` attribute omitted, an
integer payload is encoded as a single-bit raw value (`DPTBinary`) and a
sequence payload as a raw byte array (`DPTArray`), and exactly one
telegram is queued per address in the address list. -/
theorem send_untyped_encoding (env : XknxEnv) (hass : HassData)
    (m : KNX2Module) (call : SendCall)
    (hm : hass.knx2_module = some m) (hty : call.type? = none) :
    ∃ ts, service_send_to_knx2_bus env hass call = Except.ok ts ∧
      ts.length = call.address.length ∧
      ∀ t ∈ ts, t.payload.writeOrResponseValue =
        some (match call.payload with
              | .int n => DPTPayload.binary n
              | .intList l => DPTPayload.array l) := by
  have hres : service_send_to_knx2_bus env hass call =
      Except.ok (call.address.map fun addr =>
        { destination_address := env.parse_device_group_address addr
          payload :=
            if call.response then
              APCI.groupValueResponse (some (match call.payload with
                | .int n => DPTPayload.binary n
                | .intList l => DPTPayload.array l))
            else
              APCI.groupValueWrite (some (match call.payload with
                | .int n => DPTPayload.binary n
                | .intList l => DPTPayload.array l))
          source_address := m.current_address
          direction := "Outgoing" }) := by
    cases hp : call.payload <;>
      simp [service_send_to_knx2_bus, get_knx2_module, hm, hty, hp]
  refine ⟨_, hres, by simp, ?_⟩
  intro t ht
  simp only [List.mem_map] at ht
  obtain ⟨addr, _, rfl⟩ := ht
  cases call.response <;> simp [APCI.writeOrResponseValue]

/-- Witness for C5: an untyped send of integer `1` to two addresses queues
two telegrams, each carrying `DPTBinary 1`. -/
theorem send_untyped_encoding_witness :
    ∃ ts, service_send_to_knx2_bus
        { parse_device_group_address := fun _ => KnxAddress.group 2565
          parse_transcoder := fun _ => none }
        { knx2_module := some exampleModuleExact }
        { address := ["1/2/5", "1/2/6"], payload := .int 1,
          type? := none, response := false } = Except.ok ts ∧
      ts.length = 2 ∧
      ∀ t ∈ ts, t.payload.writeOrResponseValue = some (DPTPayload.binary 1) :=
  send_untyped_encoding
    { parse_device_group_address := fun _ => KnxAddress.group 2565
      parse_transcoder := fun _ => none }
    { knx2_module := some exampleModuleExact } exampleModuleExact
    { address := ["1/2/5", "1/2/6"], payload := .int 1,
      type? := none, response := false } rfl rfl

/-- C6: for every send service call whose `type` names no known transcoder,
or whose payload the transcoder cannot encode, the call raises a
`ServiceValidationError` to the caller; the `Except.error` result means
the per-address queueing loop is never reached, so no telegram is queued. -/
theorem send_invalid_type_or_payload (env : XknxEnv) (hass : HassData)
    (m : KNX2Module) (call : SendCall) (ty : String)
    (hm : hass.knx2_module = some m) (hty : call.type? = some ty)
    (hbad : env.parse_transcoder ty = none ∨
      ∃ tc e, env.parse_transcoder ty = some tc ∧
        tc.to_knx2 call.payload = .error e) :
    ∃ msg, service_send_to_knx2_bus env hass call =
      Except.error (.serviceValidationError msg) := by
  rcases hbad with hnone | ⟨tc, e, htc, henc⟩
  · exact ⟨"Invalid type for knx2.send service: " ++ ty,
      by simp [service_send_to_knx2_bus, get_knx2_module, hm, hty, hnone]⟩
  · exact ⟨"Invalid payload for knx2.send service: " ++ e,
      by simp [service_send_to_knx2_bus, get_knx2_module, hm, hty, htc, henc]⟩

/-- Witness for C6: sending payload `7` with type `1.001` through
`tcSwitch` fails to encode; the service returns a validation error and
queues nothing. -/
theorem send_invalid_type_or_payload_witness :
    ∃ msg, service_send_to_knx2_bus
        { parse_device_group_address := fun _ => KnxAddress.group 2565
          parse_transcoder := fun _ => some tcSwitch }
        { knx2_module := some exampleModuleExact }
        { address := ["1/2/5"], payload := .int 7,
          type? := some "1.001", response := false } =
      Except.error (.serviceValidationError msg) :=
  send_invalid_type_or_payload
    { parse_device_group_address := fun _ => KnxAddress.group 2565
      parse_transcoder := fun _ => some tcSwitch }
    { knx2_module := some exampleModuleExact } exampleModuleExact
    { address := ["1/2/5"], payload := .int 7,
      type? := some "1.001", response := false } "1.001" rfl rfl
    (Or.inr ⟨tcSwitch, "value out of range", rfl, rfl⟩)

/-- C7: every administrative operation invoked while the integration
module is not loaded fails immediately with the not-loaded error and
performs no other effect: each service returns
`HomeAssistantError("KNX2 entry not loaded")` before touching anything,
and the websocket wrapper sends the not-loaded error without invoking the
wrapped handler. -/
theorem not_loaded_guard (hass : HassData) (h : hass.knx2_module = none) :
    (∀ env call, service_send_to_knx2_bus env hass call =
        Except.error (.homeAssistantError "KNX2 entry not loaded")) ∧
    (∀ env call, service_read_to_knx2_bus env hass call =
        Except.error (.homeAssistantError "KNX2 entry not loaded")) ∧
    (∀ env call, service_event_register_modify env hass call =
        Except.error (.homeAssistantError "KNX2 entry not loaded")) ∧
    (∀ call, service_exposure_register_modify hass call =
        Except.error (.homeAssistantError "KNX2 entry not loaded")) ∧
    (service_reload_integration hass =
        Except.error (.homeAssistantError "KNX2 entry not loaded")) ∧
    (∀ (R : Type) (func : KNX2Module → WsMessage → R) (msg : WsMessage),
        provide_knx2 func hass msg =
          WsOutcome.sentError msg.id "home_assistant_error"
            "KNX2 integration not loaded.") := by
  refine ⟨fun env call => ?_, fun env call => ?_, fun env call => ?_,
    fun call => ?_, ?_, fun R func msg => ?_⟩ <;>
    simp [service_send_to_knx2_bus, service_read_to_knx2_bus,
      service_event_register_modify, service_exposure_register_modify,
      service_reload_integration, provide_knx2, get_knx2_module, h]

/-- Witness for C7: with no module loaded, the send service errors out and
the websocket wrapper reports "not loaded" without running its handler. -/
theorem not_loaded_guard_witness :
    service_send_to_knx2_bus
        { parse_device_group_address := fun _ => KnxAddress.group 2565
          parse_transcoder := fun _ => none }
        { knx2_module := none }
        { address := ["1/2/5"], payload := .int 1,
          type? := none, response := false } =
      Except.error (.homeAssistantError "KNX2 entry not loaded") ∧
    provide_knx2 (fun _ _ => (0 : Nat)) { knx2_module := none } { id := 42 } =
      WsOutcome.sentError 42 "home_assistant_error"
        "KNX2 integration not loaded." :=
  ⟨(not_loaded_guard { knx2_module := none } rfl).1
      { parse_device_group_address := fun _ => KnxAddress.group 2565
        parse_transcoder := fun _ => none }
      { address := ["1/2/5"], payload := .int 1,
        type? := none, response := false },
    (not_loaded_guard { knx2_module := none } rfl).2.2.2.2.2
      Nat (fun _ _ => 0) { id := 42 }⟩

/-! Helper lemmas about the association-list dictionary operations. -/

lemma dictGet_dictDelete_self {α β : Type} [DecidableEq α]
    (l : List (α × β)) (k : α) : dictGet (dictDelete l k) k = none := by
  induction l with
  | nil => rfl
  | cons p rest ih =>
      by_cases h : p.1 = k
      · simpa [dictDelete, List.filter_cons, h] using ih
      · simpa [dictDelete, List.filter_cons, h, dictGet] using ih

lemma dictGet_dictDelete_of_none {α β : Type} [DecidableEq α]
    (l : List (α × β)) (k a : α) (h : dictGet l a = none) :
    dictGet (dictDelete l k) a = none := by
  induction l with
  | nil => rfl
  | cons p rest ih =>
      by_cases hp : p.1 = a
      · simp [dictGet, hp] at h
      · have h' : dictGet rest a = none := by simpa [dictGet, hp] using h
        by_cases hk : p.1 = k
        · simpa [dictDelete, List.filter_cons, hk] using ih h'
        · have := ih h'
          simpa [dictDelete, List.filter_cons, hk, dictGet, hp] using this

lemma dictGet_eq_none_iff {α β : Type} [DecidableEq α]
    (l : List (α × β)) (k : α) :
    dictGet l k = none ↔ k ∉ l.map Prod.fst := by
  induction l with
  | nil => simp [dictGet]
  | cons p rest ih =>
      rcases p with ⟨k', v⟩
      by_cases hp : k' = k
      · subst hp
        simp [dictGet]
      · simp [dictGet, hp, ih, Ne.symm hp]

lemma dictGet_append_of_none {α β : Type} [DecidableEq α]
    (l1 l2 : List (α × β)) (k : α) (h : dictGet l1 k = none) :
    dictGet (l1 ++ l2) k = dictGet l2 k := by
  induction l1 with
  | nil => rfl
  | cons p rest ih =>
      by_cases hp : p.1 = k
      · simp [dictGet, hp] at h
      · have h' : dictGet rest k = none := by simpa [dictGet, hp] using h
        simpa [dictGet, hp] using ih h'

lemma filter_key_eq_nil_of_dictGet_none {α β : Type} [DecidableEq α]
    (l : List (α × β)) (k : α) (h : dictGet l k = none) :
    l.filter (fun p => p.1 = k) = [] := by
  induction l with
  | nil => rfl
  | cons p rest ih =>
      by_cases hp : p.1 = k
      · simp [dictGet, hp] at h
      · have h' : dictGet rest k = none := by simpa [dictGet, hp] using h
        simpa [List.filter_cons, hp] using ih h'

lemma keys_dictDelete_nodup {α β : Type} [DecidableEq α]
    (l : List (α × β)) (k : α) (h : (l.map Prod.fst).Nodup) :
    ((dictDelete l k).map Prod.fst).Nodup :=
  List.Nodup.sublist ((List.filter_sublist l).map Prod.fst) h

lemma not_mem_keys_dictDelete {α β : Type} [DecidableEq α]
    (l : List (α × β)) (k : α) : k ∉ (dictDelete l k).map Prod.fst := by
  rw [← dictGet_eq_none_iff]
  exact dictGet_dictDelete_self l k

/-! Helper lemmas about the event-register removal loop. -/

lemma event_register_remove_mem_fst (gas : List KnxAddress) :
    ∀ (ev : List KnxAddress) (tr : List (KnxAddress × Transcoder))
      (a : KnxAddress), a ∈ (event_register_remove gas ev tr).1 → a ∈ ev := by
  induction gas with
  | nil =>
      intro ev tr a h
      simpa [event_register_remove] using h
  | cons ga rest ih =>
      intro ev tr a h
      simp only [event_register_remove] at h
      exact List.mem_of_mem_erase (ih _ _ a h)

lemma event_register_remove_not_mem_fst (gas : List KnxAddress) :
    ∀ (ev : List KnxAddress) (tr : List (KnxAddress × Transcoder))
      (a : KnxAddress), ev.Nodup → a ∈ gas →
      a ∉ (event_register_remove gas ev tr).1 := by
  induction gas with
  | nil =>
      intro ev tr a _ ha
      cases ha
  | cons ga rest ih =>
      intro ev tr a hnd ha
      simp only [event_register_remove]
      rcases List.mem_cons.mp ha with rfl | hmem
      · intro hc
        have hmem2 := event_register_remove_mem_fst rest (ev.erase a)
          (dictDelete tr a) a hc
        exact ((hnd.mem_erase_iff).mp hmem2).1 rfl
      · exact ih (ev.erase ga) (dictDelete tr ga) a (hnd.erase ga) hmem

lemma event_register_remove_dictGet_none (gas : List KnxAddress) :
    ∀ (ev : List KnxAddress) (tr : List (KnxAddress × Transcoder))
      (a : KnxAddress), dictGet tr a = none →
      dictGet (event_register_remove gas ev tr).2 a = none := by
  induction gas with
  | nil =>
      intro ev tr a h
      simpa [event_register_remove] using h
  | cons ga rest ih =>
      intro ev tr a h
      simp only [event_register_remove]
      exact ih _ _ a (dictGet_dictDelete_of_none tr ga a h)

lemma event_register_remove_dictGet_mem (gas : List KnxAddress) :
    ∀ (ev : List KnxAddress) (tr : List (KnxAddress × Transcoder))
      (a : KnxAddress), a ∈ gas →
      dictGet (event_register_remove gas ev tr).2 a = none := by
  induction gas with
  | nil =>
      intro ev tr a ha
      cases ha
  | cons ga rest ih =>
      intro ev tr a ha
      simp only [event_register_remove]
      rcases List.mem_cons.mp ha with rfl | hmem
      · exact event_register_remove_dictGet_none rest _ _ a
          (dictGet_dictDelete_self tr a)
      · exact ih _ _ a hmem

/-- C8: for every `event_register` service call with `remove` set, every
listed group address is removed from the event callback's subscription
list (which never holds duplicates: the registration path skips addresses
already present) and its entry, if any, is deleted from the direct
address-to-transcoder mapping, so no transcoder binding for a removed
address survives the call. -/
theorem event_register_remove_clears (env : XknxEnv) (hass : HassData)
    (m : KNX2Module) (call : EventRegisterCall)
    (hm : hass.knx2_module = some m) (hrem : call.remove = true)
    (hnd : m.event_group_addresses.Nodup) :
    ∃ m', service_event_register_modify env hass call = Except.ok m' ∧
      ∀ ga ∈ call.address.map env.parse_device_group_address,
        ga ∉ m'.event_group_addresses ∧
        dictGet m'.group_address_transcoder ga = none := by
  refine ⟨{ m with
      event_group_addresses := (event_register_remove
        (call.address.map env.parse_device_group_address)
        m.event_group_addresses m.group_address_transcoder).1,
      group_address_transcoder := (event_register_remove
        (call.address.map env.parse_device_group_address)
        m.event_group_addresses m.group_address_transcoder).2 }, ?_, ?_⟩
  · simp [service_event_register_modify, get_knx2_module, hm, hrem]
  · intro ga hga
    exact ⟨event_register_remove_not_mem_fst _ _ _ _ hnd hga,
      event_register_remove_dictGet_mem _ _ _ _ hga⟩

/-- The external-environment instance used by the C8 witness. -/
def envW : XknxEnv :=
  { parse_device_group_address := fun s =>
      if s = "1/2/5" then KnxAddress.group 2565 else KnxAddress.group 2566
    parse_transcoder := fun _ => none }

/-- Witness for C8: removing `1/2/5` from a module that subscribes to it
and binds it to `tcSwitch` leaves neither the subscription nor the
transcoder binding behind. -/
theorem event_register_remove_clears_witness :
    ∃ m', service_event_register_modify envW
        { knx2_module := some exampleModuleExact }
        { address := ["1/2/5"], type? := none, remove := true } =
        Except.ok m' ∧
      ∀ ga ∈ ["1/2/5"].map envW.parse_device_group_address,
        ga ∉ m'.event_group_addresses ∧
        dictGet m'.group_address_transcoder ga = none :=
  event_register_remove_clears envW { knx2_module := some exampleModuleExact }
    exampleModuleExact { address := ["1/2/5"], type? := none, remove := true }
    rfl rfl (by decide)

/-- C9: for every entity whose underlying device state-address is
non-readable, if a previously persisted state exists and is neither
`unknown` nor `unavailable`, the entity adopts that persisted state as its
device's seed value when added (switch: `state == "on"`, text: the state
string, date: the parsed ISO date), instead of starting as unknown. -/
theorem state_restore_seed (readable : Bool) (last_state : Option String)
    (s : String) (currentB : Option Bool) (currentS : Option String)
    (V : Type) (from_date_iso : String → V) (currentD : Option V)
    (hr : readable = false) (hl : last_state = some s)
    (h1 : s ≠ "unknown") (h2 : s ≠ "unavailable") :
    switch_async_added_to_hass readable last_state currentB =
      some (s == "on") ∧
    text_async_added_to_hass readable last_state currentS = some s ∧
    date_async_added_to_hass from_date_iso readable last_state currentD =
      some (from_date_iso s) := by
  subst hr hl
  refine ⟨?_, ?_, ?_⟩ <;>
    simp [switch_async_added_to_hass, text_async_added_to_hass,
      date_async_added_to_hass, h1, h2]

/-- Witness for C9: a persisted `on` state seeds the switch with `true`,
the text entity with `"on"`, and the date entity with the parsed value. -/
theorem state_restore_seed_witness :
    switch_async_added_to_hass false (some "on") none =
      some ("on" == "on") ∧
    text_async_added_to_hass false (some "on") none = some "on" ∧
    date_async_added_to_hass (fun _ => (0 : Nat)) false (some "on") none =
      some 0 :=
  state_restore_seed false (some "on") "on" none none Nat (fun _ => 0) none
    rfl rfl (by decide) (by decide)

/-- C10: the service-exposure map holds at most one exposure per group
address — every successful call preserves distinctness of the keys, and
registering over an existing address pops the prior exposure before
storing the new one (exactly one entry for the address remains, holding
the new exposure) — and removing an exposure for an address with no
registered exposure fails with a `ServiceValidationError`, the `Except`
error leaving the map unchanged. -/
theorem exposure_register_unique (hass : HassData) (m : KNX2Module)
    (call : ExposureCall)
    (hm : hass.knx2_module = some m)
    (hnd : (m.service_exposures.map Prod.fst).Nodup) :
    (∀ m', service_exposure_register_modify hass call = Except.ok m' →
        (m'.service_exposures.map Prod.fst).Nodup) ∧
    (call.remove = false →
        ∃ m', service_exposure_register_modify hass call = Except.ok m' ∧
          dictGet m'.service_exposures call.address =
            some (create_knx2_exposure call) ∧
          countKey m'.service_exposures call.address = 1) ∧
    (call.remove = true →
        dictGet m.service_exposures call.address = none →
        service_exposure_register_modify hass call =
          Except.error (.serviceValidationError
            ("Could not find exposure for '" ++ call.address ++
              "' to remove."))) := by
  have hremaining :
      dictGet (if (dictGet m.service_exposures call.address).isSome then
          dictDelete m.service_exposures call.address
        else m.service_exposures) call.address = none := by
    by_cases hks : (dictGet m.service_exposures call.address).isSome
    · simpa [hks] using dictGet_dictDelete_self m.service_exposures call.address
    · simpa [hks] using Option.not_isSome_iff_eq_none.mp hks
  have hremaining_nodup :
      ((if (dictGet m.service_exposures call.address).isSome then
          dictDelete m.service_exposures call.address
        else m.service_exposures).map Prod.fst).Nodup := by
    by_cases hks : (dictGet m.service_exposures call.address).isSome
    · simpa [hks] using keys_dictDelete_nodup m.service_exposures call.address hnd
    · simpa [hks] using hnd
  refine ⟨?_, ?_, ?_⟩
  · intro m' hok
    by_cases hrem : call.remove
    · rcases hget : dictGet m.service_exposures call.address with _ | e
      · simp [service_exposure_register_modify, get_knx2_module, hm, hrem,
          hget] at hok
      · have hm' : m' = { m with service_exposures :=
            (dictDelete m.service_exposures call.address) } := by
          have := hok
          simp [service_exposure_register_modify, get_knx2_module, hm, hrem,
            hget] at this
          exact this.symm
        subst hm'
        exact keys_dictDelete_nodup m.service_exposures call.address hnd
    · have hm' : m' = { m with service_exposures :=
          ((if (dictGet m.service_exposures call.address).isSome then
            dictDelete m.service_exposures call.address
          else m.service_exposures) ++
            [(call.address, create_knx2_exposure call)]) } := by
        have := hok
        simp [service_exposure_register_modify, get_knx2_module, hm, hrem]
          at this
        exact this.symm
      subst hm'
      simp only [List.map_append, List.map_cons, List.map_nil]
      rw [List.nodup_append]
      refine ⟨hremaining_nodup, List.nodup_singleton _, ?_⟩
      intro a ha hb
      have hb' : a = call.address := by simpa using hb
      subst hb'
      exact (dictGet_eq_none_iff _ _).mp hremaining ha
  · intro hrem
    refine ⟨{ m with service_exposures :=
        ((if (dictGet m.service_exposures call.address).isSome then
          dictDelete m.service_exposures call.address
        else m.service_exposures) ++
          [(call.address, create_knx2_exposure call)]) }, ?_, ?_, ?_⟩
    · simp [service_exposure_register_modify, get_knx2_module, hm, hrem]
    · have := dictGet_append_of_none _
        [(call.address, create_knx2_exposure call)] call.address hremaining
      simpa [dictGet] using this
    · have hfil := filter_key_eq_nil_of_dictGet_none _ call.address hremaining
      simp [countKey, List.filter_append, hfil]
  · intro hrem hget
    simp [service_exposure_register_modify, get_knx2_module, hm, hrem, hget]

/-- A module holding one service exposure, keyed by `5/1/1`. -/
def exampleModuleExpo : KNX2Module :=
  { group_address_transcoder := []
    address_filter_transcoder := []
    event_group_addresses := []
    service_exposures := [("5/1/1", { address := "5/1/1", config := [] })]
    current_address := KnxAddress.individual 4097 }

/-- Witness for C10: re-registering an exposure for `5/1/1` over the
existing one leaves exactly one entry for that address, holding the new
exposure. -/
theorem exposure_register_unique_witness :
    ∃ m', service_exposure_register_modify
        { knx2_module := some exampleModuleExpo }
        { address := "5/1/1", remove := false,
          config := [("type", "percent")] } = Except.ok m' ∧
      dictGet m'.service_exposures "5/1/1" =
        some (create_knx2_exposure
          { address := "5/1/1", remove := false,
            config := [("type", "percent")] }) ∧
      countKey m'.service_exposures "5/1/1" = 1 :=
  (exposure_register_unique { knx2_module := some exampleModuleExpo }
    exampleModuleExpo
    { address := "5/1/1", remove := false, config := [("type", "percent")] }
    rfl (by decide)).2.1 rfl

end Knx2
